import Mathlib

/-!
Shallow embedding of the video upload/list pipeline implemented by
`VideoManager` in `src/js/vidio.js`, together with proofs of the
specification's claims about it.

Modelling conventions:
* The `{success: true, ...} / {success: false, error}` result objects are
  modelled as `Except String α` (the error channel carries `error.message`).
* Injected collaborators (Supabase storage, database, auth) are modelled as
  explicit parameters / fields of an environment record; I/O performed by a
  call is recorded in the returned outcome (call logs, blob-store state).
* JavaScript numbers that the code only ever uses as non-negative integers
  (byte sizes, `Date.now()` milliseconds) are modelled as `Nat`; the
  floating-point computations of `formatFileSize` are exact on the integer
  ranges considered (see the comments at `unitIndex` and `round2`).
-/

namespace Vidio

/-- An uploaded file as the browser hands it to `uploadVideo`
(`file.name`, `file.size`, `file.type`). -/
structure Blob where
  name : String
  size : Nat
  type : String
  deriving Repr, DecidableEq, Inhabited

/-- The authenticated principal returned by `authManager.getCurrentUser()`;
only its `id` is consumed by the pipeline. -/
structure Principal where
  id : String
  deriving Repr, DecidableEq, Inhabited

/-- The record payload `uploadVideo` passes to
`supabase.from('videos').insert([...])` (no `id`: the store assigns it). -/
structure VideoRecord where
  title : String
  description : String
  file_name : String
  file_size : Nat
  file_type : String
  storage_path : String
  video_url : String
  uploaded_by : String
  duration : Nat
  created_at : String
  deriving Repr, DecidableEq, Inhabited

/-- A row of the `videos` table as returned by `select('*')` in
`getAllVideos` (the inserted payload plus the store-assigned `id`). -/
structure Video where
  id : String
  title : String
  description : String
  file_name : String
  file_size : Nat
  file_type : String
  storage_path : String
  video_url : String
  uploaded_by : String
  duration : Nat
  created_at : String
  deriving Repr, DecidableEq, Inhabited

/-- A row of the `profiles` table as returned by
`select('id, full_name, email')`. -/
structure Profile where
  id : String
  full_name : String
  email : String
  deriving Repr, DecidableEq, Inhabited

/-- The `profiles` object attached to each video by `getAllVideos`.  The
placeholder object literal in the source has no `id` field, while a fetched
profile does, hence the optional `id`. -/
structure ProfileView where
  id : Option String
  full_name : String
  email : String
  deriving Repr, DecidableEq, Inhabited

/-- `{ ...video, profiles: ... }`: the spread copies every field of the
video row unchanged and adds the single `profiles` field. -/
structure VideoWithProfile where
  video : Video
  profiles : ProfileView
  deriving Repr, DecidableEq, Inhabited

/-- `{ full_name: 'Unknown User', email: 'unknown@email.com' }`. -/
def placeholderProfile : ProfileView :=
  { id := none, full_name := "Unknown User", email := "unknown@email.com" }

/-- View of a fetched profile row as an attached `profiles` object. -/
def Profile.toView (p : Profile) : ProfileView :=
  { id := some p.id, full_name := p.full_name, email := p.email }

/-! ### formatFileSize -/

/-- `const sizes = ['Bytes', 'KB', 'MB', 'GB'];` -/
def sizes : List String := ["Bytes", "KB", "MB", "GB"]

/-- Fuel-driven computation of the integer part of the base-1024 logarithm
(`logFloorAux fuel b = ⌊log₁₀₂₄ b⌋` whenever `b ≤ fuel`). -/
def logFloorAux : Nat → Nat → Nat
  | 0, _ => 0
  | fuel + 1, b => if b < 1024 then 0 else logFloorAux fuel (b / 1024) + 1

/-- `const i = Math.floor(Math.log(bytes) / Math.log(k));` with `k = 1024`:
the integer part of the base-1024 logarithm.  For every integer
`1 ≤ bytes ≤ 1024 ^ 4` the double-precision quotient
`Math.log(bytes) / Math.log(1024)` has the same floor as the exact
real logarithm (at the powers `1024 ^ i` both glibc's and fdlibm's `log`
make the quotient exactly `i`, and away from the powers the distance to the
nearest integer exceeds the rounding error by several orders of magnitude),
so this `Nat` computation is exact on the range the theorems below use. -/
def unitIndex (bytes : Nat) : Nat := logFloorAux bytes bytes

/-- `parseFloat((bytes / Math.pow(k, i)).toFixed(2))` as an integer count of
hundredths: `bytes / 1024 ^ i` is exactly representable (a division of an
integer below 2^53 by a power of two), and `toFixed(2)` rounds the exact
value to an integer number of hundredths, half away from zero. -/
def round2 (bytes i : Nat) : Nat := (200 * bytes + 1024 ^ i) / (2 * 1024 ^ i)

/-- Decimal rendering of `n` hundredths after `parseFloat`, which drops
trailing fractional zeros (`"1.50" ↦ 1.5`, `"1.00" ↦ 1`). -/
def fmt2 (n : Nat) : String :=
  if n % 100 = 0 then toString (n / 100)
  else if n % 10 = 0 then toString (n / 100) ++ "." ++ toString (n / 10 % 10)
  else toString (n / 100) ++ "." ++
    (if n % 100 < 10 then "0" else "") ++ toString (n % 100)

/-- `VideoManager.formatFileSize`.  Out-of-range indexing of `sizes`
(`bytes ≥ 1024 ^ 4`) yields JavaScript `undefined`, which string
concatenation renders as `"undefined"`. -/
def formatFileSize (bytes : Nat) : String :=
  if bytes = 0 then "0 Bytes"
  else fmt2 (round2 bytes (unitIndex bytes)) ++ " " ++
    (sizes.getD (unitIndex bytes) "undefined")

/-- The size formatter as §4.3 of the spec words it: select the largest unit
among `{Bytes, KB, MB, GB}` for which the scaled value is at least 1, round
to 2 decimal places, format `0` as `"0 Bytes"`. -/
def formatSizeSpec (bytes : Nat) : String :=
  if bytes = 0 then "0 Bytes"
  else
    let i := if 1024 ^ 3 ≤ bytes then 3
      else if 1024 ^ 2 ≤ bytes then 2
      else if 1024 ≤ bytes then 1
      else 0
    fmt2 (round2 bytes i) ++ " " ++ (sizes.getD i "undefined")

/-! ### getAllVideos -/

/-- `[...new Set(xs)]`: deduplication keeping the first occurrence of each
element, in insertion order. -/
def dedupFirst : List String → List String
  | [] => []
  | x :: xs => x :: dedupFirst (xs.filter (fun y => y ≠ x))
termination_by l => l.length
decreasing_by
  simp only [List.length_cons]
  exact Nat.lt_succ_of_le (List.length_filter_le _ _)

/-- `VideoManager.getAllVideos`.  The two Supabase queries are modelled as
inputs: `videosRes` is the result of the ordered `select('*')` on `videos`,
and `fetchProfiles` maps the collected distinct `uploaded_by` ids to the
result of the `in('id', userIds)` query on `profiles`.  The `catch` around
the thrown query errors produces the error result; the `profilesError`
branch only logs and substitutes the placeholder. -/
def getAllVideos (videosRes : Except String (List Video))
    (fetchProfiles : List String → Except String (List Profile)) :
    Except String (List VideoWithProfile) :=
  match videosRes with
  | .error e => .error e
  | .ok videos =>
    if videos.isEmpty then .ok []
    else
      let userIds := dedupFirst (videos.map (fun v => v.uploaded_by))
      match fetchProfiles userIds with
      | .error _ =>
        .ok (videos.map (fun v => { video := v, profiles := placeholderProfile }))
      | .ok profiles =>
        .ok (videos.map (fun v =>
          { video := v,
            profiles :=
              match profiles.find? (fun p => p.id == v.uploaded_by) with
              | some p => p.toView
              | none => placeholderProfile }))

/-! ### getVideoById -/

/-- Modelled from the spec: the metadata store's
`queryById(collection, id) -> Result<record|NotFound, Error>` (§6), i.e. the
Supabase `.eq('id', videoId).single()` query that `getVideoById` delegates
the lookup to — the matching itself is not code of this repository.  Per
§4.2 step 2, when no record matches `id` the result is a `NotFound` failure;
`.single()` also fails when several rows match.  The profile join embedded
in the select decorates the returned row and is irrelevant to the
match-by-id semantics, so the row type is `Video`. -/
def queryByIdSingle (db : List Video) (videoId : String) :
    Except String Video :=
  match db.filter (fun v => v.id == videoId) with
  | [v] => .ok v
  | _ => .error "NotFound"

/-- `VideoManager.getVideoById`: propagate the query error through the
`catch` as a failure result, otherwise return the row as a success. -/
def getVideoById (db : List Video) (videoId : String) :
    Except String Video :=
  match queryByIdSingle db videoId with
  | .error e => .error e
  | .ok v => .ok v

/-! ### uploadVideo -/

/-- `const validTypes = [...]`. -/
def validTypes : List String :=
  ["video/mp4", "video/quicktime", "video/x-msvideo", "video/mpeg"]

/-- Last segment of a dot-separated character list (`acc` is the segment
read so far); a dot starts a fresh segment. -/
def lastSegAux : List Char → List Char → List Char
  | [], acc => acc
  | c :: cs, acc =>
    if c = '.' then lastSegAux cs [] else lastSegAux cs (acc ++ [c])

/-- `file.name.split('.').pop()`: the part after the last dot (the whole
name when it has no dot, empty when the name ends in a dot). -/
def fileExtOf (name : String) : String := ⟨lastSegAux name.data []⟩

/-- The derived storage key
`` `videos/${user.id}/${Date.now()}-${Math.random().toString(36).substring(7)}.${fileExt}` ``. -/
def storageKey (uid : String) (ms : Nat) (tok : String) (ext : String) :
    String :=
  "videos/" ++ uid ++ "/" ++ toString ms ++ "-" ++ tok ++ "." ++ ext

/-- The collaborators and ambient values a single `uploadVideo` call
consumes: the current user, the storage client's response to an upload
request (keyed by the requested path, returning `data.path`), the public
URL derivation, the database insert's response, and the values produced by
`Date.now()`, `Math.random().toString(36).substring(7)` and
`new Date().toISOString()` during this call. -/
structure UploadEnv where
  user : Option Principal
  storageUpload : String → Except String String
  getPublicUrl : String → String
  dbInsert : VideoRecord → Except String Unit
  nowMs : Nat
  randToken : String
  nowIso : String

/-- Observable outcome of one `uploadVideo` call: the returned result, the
keys passed to `storage.upload`, the records passed to the database
`insert`, and the blob-store contents after the call (initial contents plus
any key successfully written; the code never deletes a blob). -/
structure UploadOutcome where
  result : Except String String
  storageCalls : List String
  dbInserts : List VideoRecord
  store : List String
  deriving Repr

/-- `VideoManager.uploadVideo`.  `store0` is the blob-store contents before
the call.  Validation failures and thrown collaborator errors all reach the
`catch` and become failure results carrying the message. -/
def uploadVideo (env : UploadEnv) (store0 : List String) (blob : Blob)
    (title description : String) : UploadOutcome :=
  match env.user with
  | none =>
    { result := .error "User not authenticated",
      storageCalls := [], dbInserts := [], store := store0 }
  | some user =>
    if validTypes.contains blob.type = false then
      { result := .error "Hanya file video yang diperbolehkan (MP4, MOV, AVI, MPEG)",
        storageCalls := [], dbInserts := [], store := store0 }
    else if blob.size > 50 * 1024 * 1024 then
      { result := .error "File terlalu besar! Maksimal 50MB.",
        storageCalls := [], dbInserts := [], store := store0 }
    else
      let fileName := storageKey user.id env.nowMs env.randToken (fileExtOf blob.name)
      match env.storageUpload fileName with
      | .error e =>
        { result := .error e,
          storageCalls := [fileName], dbInserts := [], store := store0 }
      | .ok path =>
        let publicUrl := env.getPublicUrl path
        let record : VideoRecord :=
          { title := title, description := description,
            file_name := blob.name, file_size := blob.size,
            file_type := blob.type, storage_path := path,
            video_url := publicUrl, uploaded_by := user.id,
            duration := 0, created_at := env.nowIso }
        match env.dbInsert record with
        | .error e =>
          { result := .error e, storageCalls := [fileName],
            dbInserts := [record], store := store0 ++ [fileName] }
        | .ok _ =>
          { result := .ok publicUrl, storageCalls := [fileName],
            dbInserts := [record], store := store0 ++ [fileName] }

/-! ### Sample data for witnesses -/

/-- A sample video row owned by `"u1"`. -/
def sampleVideo1 : Video :=
  { id := "vid-1", title := "Demo", description := "first",
    file_name := "a.mp4", file_size := 4, file_type := "video/mp4",
    storage_path := "videos/u1/1-aa.mp4", video_url := "https://cdn.example/1",
    uploaded_by := "u1", duration := 0,
    created_at := "2024-01-02T00:00:00.000Z" }

/-- A sample video row owned by `"u2"`, which has no profile row. -/
def sampleVideo2 : Video :=
  { id := "vid-2", title := "Second", description := "second",
    file_name := "b.mp4", file_size := 9, file_type := "video/mp4",
    storage_path := "videos/u2/2-bb.mp4", video_url := "https://cdn.example/2",
    uploaded_by := "u2", duration := 0,
    created_at := "2024-01-01T00:00:00.000Z" }

/-- The profile row for `"u1"`. -/
def sampleProfile1 : Profile :=
  { id := "u1", full_name := "Alice", email := "alice@example.com" }

/-- A valid upload blob. -/
def sampleBlob : Blob := { name := "clip.mp4", size := 1048576, type := "video/mp4" }

/-- A blob with a mime type outside the allow-list. -/
def badTypeBlob : Blob := { name := "notes.txt", size := 1048576, type := "text/plain" }

/-- A blob one byte over the 50 MiB ceiling. -/
def hugeBlob : Blob := { name := "big.mp4", size := 52428801, type := "video/mp4" }

/-- A fully healthy upload environment. -/
def okEnv : UploadEnv :=
  { user := some { id := "u1" }, storageUpload := fun k => .ok k,
    getPublicUrl := fun p => "https://cdn.example/" ++ p,
    dbInsert := fun _ => .ok (), nowMs := 1700000000000,
    randToken := "k3x9q", nowIso := "2023-11-14T22:13:20.000Z" }

/-- Same instant and principal as `okEnv` but a different random suffix. -/
def okEnv2 : UploadEnv :=
  { user := some { id := "u1" }, storageUpload := fun k => .ok k,
    getPublicUrl := fun p => "https://cdn.example/" ++ p,
    dbInsert := fun _ => .ok (), nowMs := 1700000000000,
    randToken := "p7r2t", nowIso := "2023-11-14T22:13:20.000Z" }

/-- An environment whose storage write succeeds but whose database insert
fails. -/
def dbFailEnv : UploadEnv :=
  { user := some { id := "u1" }, storageUpload := fun k => .ok k,
    getPublicUrl := fun p => "https://cdn.example/" ++ p,
    dbInsert := fun _ => .error "insert failed", nowMs := 1700000000000,
    randToken := "k3x9q", nowIso := "2023-11-14T22:13:20.000Z" }

/-- Two invocations at the same millisecond whose `Math.random()` values
differ yet strip to the same suffix: `(0.5).toString(36)` is `"0.i"` and
`(0.25).toString(36)` is `"0.9"`, so `.substring(7)` is `""` for both. -/
def collideEnvA : UploadEnv :=
  { user := some { id := "u1" }, storageUpload := fun k => .ok k,
    getPublicUrl := fun p => "https://cdn.example/" ++ p,
    dbInsert := fun _ => .ok (), nowMs := 1700000000000,
    randToken := "", nowIso := "2023-11-14T22:13:20.000Z" }

/-- See `collideEnvA`; only the wall-clock ISO string differs, marking a
distinct invocation in the same millisecond. -/
def collideEnvB : UploadEnv :=
  { user := some { id := "u1" }, storageUpload := fun k => .ok k,
    getPublicUrl := fun p => "https://cdn.example/" ++ p,
    dbInsert := fun _ => .ok (), nowMs := 1700000000000,
    randToken := "", nowIso := "2023-11-14T22:13:20.001Z" }

/-! ## Lemmas -/

/-- Unfolding equation of `getAllVideos` on a successful video fetch. -/
theorem getAllVideos_ok (videos : List Video)
    (fetchProfiles : List String → Except String (List Profile)) :
    getAllVideos (.ok videos) fetchProfiles =
      if videos.isEmpty then .ok []
      else
        match fetchProfiles (dedupFirst (videos.map (fun v => v.uploaded_by))) with
        | .error _ =>
          .ok (videos.map (fun v => { video := v, profiles := placeholderProfile }))
        | .ok profiles =>
          .ok (videos.map (fun v =>
            { video := v,
              profiles :=
                match profiles.find? (fun p => p.id == v.uploaded_by) with
                | some p => p.toView
                | none => placeholderProfile })) := rfl

/-- The metadata record a given upload attempt inserts (the `insert`
payload of `uploadVideo`, with the public URL inlined). -/
def mkRecord (env : UploadEnv) (blob : Blob) (title description : String)
    (u : Principal) (path : String) : VideoRecord :=
  { title := title, description := description, file_name := blob.name,
    file_size := blob.size, file_type := blob.type, storage_path := path,
    video_url := env.getPublicUrl path, uploaded_by := u.id,
    duration := 0, created_at := env.nowIso }

/-- Unfolding equation of `uploadVideo` for an authenticated principal. -/
theorem uploadVideo_some (env : UploadEnv) (store0 : List String) (blob : Blob)
    (title description : String) (u : Principal) (hu : env.user = some u) :
    uploadVideo env store0 blob title description =
      if validTypes.contains blob.type = false then
        { result := .error "Hanya file video yang diperbolehkan (MP4, MOV, AVI, MPEG)",
          storageCalls := [], dbInserts := [], store := store0 }
      else if blob.size > 50 * 1024 * 1024 then
        { result := .error "File terlalu besar! Maksimal 50MB.",
          storageCalls := [], dbInserts := [], store := store0 }
      else
        match env.storageUpload
          (storageKey u.id env.nowMs env.randToken (fileExtOf blob.name)) with
        | .error e =>
          { result := .error e,
            storageCalls :=
              [storageKey u.id env.nowMs env.randToken (fileExtOf blob.name)],
            dbInserts := [], store := store0 }
        | .ok path =>
          match env.dbInsert (mkRecord env blob title description u path) with
          | .error e =>
            { result := .error e,
              storageCalls :=
                [storageKey u.id env.nowMs env.randToken (fileExtOf blob.name)],
              dbInserts := [mkRecord env blob title description u path],
              store := store0 ++
                [storageKey u.id env.nowMs env.randToken (fileExtOf blob.name)] }
          | .ok _ =>
            { result := .ok (env.getPublicUrl path),
              storageCalls :=
                [storageKey u.id env.nowMs env.randToken (fileExtOf blob.name)],
              dbInserts := [mkRecord env blob title description u path],
              store := store0 ++
                [storageKey u.id env.nowMs env.randToken (fileExtOf blob.name)] } := by
  unfold uploadVideo
  rw [hu]
  exact rfl

/-- Keys derived with distinct random tokens differ (token occupies a fixed
slot between the millisecond prefix and the extension suffix). -/
theorem storageKey_ne_of_tok_ne (uid : String) (ms : Nat) (tok1 tok2 ext : String)
    (h : tok1 ≠ tok2) :
    storageKey uid ms tok1 ext ≠ storageKey uid ms tok2 ext := by
  intro heq
  apply h
  unfold storageKey at heq
  have h1 := congrArg String.data heq
  simp only [String.data_append, List.append_assoc] at h1
  have h2 := List.append_cancel_left h1
  have h3 := List.append_cancel_left h2
  have h4 := List.append_cancel_left h3
  have h5 := List.append_cancel_left h4
  have h6 := List.append_cancel_left h5
  have h7 := List.append_cancel_right h6
  cases tok1; cases tok2; exact congrArg String.mk h7

theorem logFloorAux_eq (fuel : Nat) : ∀ b : Nat, b ≤ fuel → b < 1024 ^ 4 →
    logFloorAux fuel b =
      if b < 1024 then 0
      else if b < 1024 ^ 2 then 1
      else if b < 1024 ^ 3 then 2
      else 3 := by
  induction fuel with
  | zero =>
    intro b hb _
    have hb0 : b = 0 := Nat.le_zero.mp hb
    subst hb0
    simp [logFloorAux]
  | succ n ih =>
    intro b hb h4
    by_cases hsmall : b < 1024
    · simp [logFloorAux, hsmall]
    · have hb1024 : 1024 ≤ b := Nat.le_of_not_lt hsmall
      have hdiv_le : b / 1024 ≤ n := by
        have : b / 1024 < b := Nat.div_lt_self (by omega) (by omega)
        omega
      have hdiv4 : b / 1024 < 1024 ^ 4 := by
        have h1 : b / 1024 ≤ b := Nat.div_le_self _ _
        omega
      rw [show logFloorAux (n + 1) b = logFloorAux n (b / 1024) + 1 from by
        simp [logFloorAux, hsmall]]
      rw [ih (b / 1024) hdiv_le hdiv4]
      norm_num
      split_ifs <;> omega

theorem unitIndex_eq (b : Nat) (h4 : b < 1024 ^ 4) :
    unitIndex b =
      if b < 1024 then 0
      else if b < 1024 ^ 2 then 1
      else if b < 1024 ^ 3 then 2
      else 3 :=
  logFloorAux_eq b b le_rfl h4

theorem formatFileSize_eq_spec (bytes : Nat) (h : bytes < 1024 ^ 4) :
    formatFileSize bytes = formatSizeSpec bytes := by
  unfold formatFileSize formatSizeSpec
  by_cases h0 : bytes = 0
  · simp [h0]
  · rw [if_neg h0, if_neg h0, unitIndex_eq bytes h]
    norm_num
    split_ifs <;> first | rfl | omega

/-! ## Claims -/

/-- **C2** (amended): on every input below `1024 ^ 4` (1 TiB),
`formatFileSize` agrees with the spec's description — largest base-1024
unit among `{Bytes, KB, MB, GB}` whose scaled value is at least 1, scaled
value rounded to 2 decimal places, `0` formatted as `"0 Bytes"` — and the
four concrete examples of the claim hold.  (On inputs of 1 TiB and above
the code indexes past the end of the unit array and appends `"undefined"`;
see the counterexample.) -/
theorem formatFileSize_matches_spec :
    (∀ bytes : Nat, bytes < 1024 ^ 4 →
      formatFileSize bytes = formatSizeSpec bytes) ∧
    formatFileSize 0 = "0 Bytes" ∧ formatFileSize 1024 = "1 KB" ∧
    formatFileSize 1536 = "1.5 KB" ∧ formatFileSize 1073741824 = "1 GB" :=
  ⟨formatFileSize_eq_spec, by decide, by decide, by decide, by decide⟩

/-- **C2** witness: the general part of the amended claim, applied at a
concrete input. -/
theorem formatFileSize_matches_spec_witness :
    formatFileSize 1536 = formatSizeSpec 1536 :=
  formatFileSize_matches_spec.1 1536 (by norm_num)

/-- **C2** counterexample: at `bytes = 1024 ^ 4` the claimed unit selection
would produce `"1024 GB"` (the largest listed unit with scaled value ≥ 1 is
GB), but the code computes unit index 4, reads `sizes[4]` (JavaScript
`undefined`), and returns `"1 undefined"`. -/
theorem formatFileSize_unit_overflow :
    formatFileSize 1099511627776 = "1 undefined" ∧
    formatSizeSpec 1099511627776 = "1024 GB" ∧
    formatFileSize 1099511627776 ≠ formatSizeSpec 1099511627776 :=
  ⟨by decide, by decide, by decide⟩

/-- **C6**: when no record's `id` matches the requested id, `getVideoById`
returns the `NotFound` failure of the single-row query — a failure result,
not a success with an empty payload. -/
theorem getVideoById_notFound (db : List Video) (videoId : String)
    (h : ∀ v ∈ db, v.id ≠ videoId) :
    getVideoById db videoId = .error "NotFound" := by
  unfold getVideoById queryByIdSingle
  have hf : db.filter (fun v => v.id == videoId) = [] :=
    List.filter_eq_nil_iff.mpr (by intro v hv; simpa using h v hv)
  rw [hf]

/-- **C6** witness. -/
theorem getVideoById_notFound_witness :
    getVideoById [sampleVideo1] "missing-id" = .error "NotFound" :=
  getVideoById_notFound [sampleVideo1] "missing-id" (by decide)

/-- **C1**: when the video fetch succeeds with a non-empty list and the
profile fetch fails, `getAllVideos` still returns a success whose records
each carry the placeholder profile (`full_name = "Unknown User"`,
`email = "unknown@email.com"`, the spec's `displayName`/`email`); the
profile-fetch error does not reach the returned error channel. -/
theorem getAllVideos_profileFetchError (videos : List Video) (e : String)
    (hne : videos ≠ []) :
    ∃ l, getAllVideos (.ok videos) (fun _ => .error e) = .ok l ∧
      l.length = videos.length ∧
      ∀ i (hi : i < videos.length) (hl : i < l.length),
        (l.get ⟨i, hl⟩).profiles = placeholderProfile ∧
        (l.get ⟨i, hl⟩).video = videos.get ⟨i, hi⟩ := by
  refine ⟨videos.map (fun v => { video := v, profiles := placeholderProfile }),
    ?_, by simp, ?_⟩
  · rw [getAllVideos_ok, if_neg (by simpa using hne)]
  · intro i hi hl
    simp [List.get_eq_getElem]

/-- **C1** witness. -/
theorem getAllVideos_profileFetchError_witness :
    ∃ l, getAllVideos (.ok [sampleVideo1, sampleVideo2])
        (fun _ => .error "profiles fetch failed") = .ok l ∧
      l.length = [sampleVideo1, sampleVideo2].length ∧
      ∀ i (hi : i < [sampleVideo1, sampleVideo2].length) (hl : i < l.length),
        (l.get ⟨i, hl⟩).profiles = placeholderProfile ∧
        (l.get ⟨i, hl⟩).video = [sampleVideo1, sampleVideo2].get ⟨i, hi⟩ :=
  getAllVideos_profileFetchError [sampleVideo1, sampleVideo2]
    "profiles fetch failed" (by simp)

/-- **C5**: when both fetches succeed, every record is joined to the
profiles list by `ownerId == id`: a record whose `uploaded_by` matches no
profile gets the placeholder profile, and a record with a match gets (the
view of) a profile from the fetched list whose `id` equals its
`uploaded_by`, the record itself being preserved. -/
theorem getAllVideos_join (videos : List Video) (profiles : List Profile)
    (fetchProfiles : List String → Except String (List Profile))
    (hfp : fetchProfiles (dedupFirst (videos.map (fun v => v.uploaded_by))) =
      .ok profiles) :
    ∃ l, getAllVideos (.ok videos) fetchProfiles = .ok l ∧
      l.length = videos.length ∧
      ∀ i (hi : i < videos.length) (hl : i < l.length),
        (l.get ⟨i, hl⟩).video = videos.get ⟨i, hi⟩ ∧
        ((∀ p ∈ profiles, p.id ≠ (videos.get ⟨i, hi⟩).uploaded_by) →
          (l.get ⟨i, hl⟩).profiles = placeholderProfile) ∧
        (∀ p ∈ profiles, p.id = (videos.get ⟨i, hi⟩).uploaded_by →
          ∃ q ∈ profiles, q.id = (videos.get ⟨i, hi⟩).uploaded_by ∧
            (l.get ⟨i, hl⟩).profiles = q.toView) := by
  by_cases hne : videos.isEmpty
  · refine ⟨[], ?_, ?_, ?_⟩
    · rw [getAllVideos_ok, if_pos hne]
    · simp [List.isEmpty_iff.mp hne]
    · intro i hi hl; cases hl
  · rw [getAllVideos_ok, if_neg hne, hfp]
    refine ⟨_, rfl, by simp, ?_⟩
    intro i hi hl
    simp only [List.get_eq_getElem, List.getElem_map]
    refine ⟨by trivial, ?_, ?_⟩
    · intro hnone
      have hf : profiles.find? (fun p => p.id == videos[i].uploaded_by) = none := by
        apply List.find?_eq_none.mpr
        intro p hp
        simpa using hnone p hp
      simp [hf]
    · intro p hp hpid
      cases hfind : profiles.find? (fun q => q.id == videos[i].uploaded_by) with
      | none =>
        exfalso
        have := List.find?_eq_none.mp hfind p hp
        simp [hpid] at this
      | some q =>
        refine ⟨q, List.mem_of_find?_eq_some hfind, ?_, ?_⟩
        · have := List.find?_some hfind
          simpa using this
        · simp [hfind]

/-- **C5** witness: one owned record, one orphaned record. -/
theorem getAllVideos_join_witness :
    ∃ l, getAllVideos (.ok [sampleVideo1, sampleVideo2])
        (fun _ => .ok [sampleProfile1]) = .ok l ∧
      l.length = [sampleVideo1, sampleVideo2].length ∧
      ∀ i (hi : i < [sampleVideo1, sampleVideo2].length) (hl : i < l.length),
        (l.get ⟨i, hl⟩).video = [sampleVideo1, sampleVideo2].get ⟨i, hi⟩ ∧
        ((∀ p ∈ [sampleProfile1],
            p.id ≠ ([sampleVideo1, sampleVideo2].get ⟨i, hi⟩).uploaded_by) →
          (l.get ⟨i, hl⟩).profiles = placeholderProfile) ∧
        (∀ p ∈ [sampleProfile1],
          p.id = ([sampleVideo1, sampleVideo2].get ⟨i, hi⟩).uploaded_by →
          ∃ q ∈ [sampleProfile1],
            q.id = ([sampleVideo1, sampleVideo2].get ⟨i, hi⟩).uploaded_by ∧
            (l.get ⟨i, hl⟩).profiles = q.toView) :=
  getAllVideos_join [sampleVideo1, sampleVideo2] [sampleProfile1]
    (fun _ => .ok [sampleProfile1]) rfl

/-- **C10**: whatever the profile fetch does, a successful video fetch
yields a success whose list has the same length and order as the fetched
rows, each row preserved unchanged in the `video` component — enrichment
only adds the `profiles` field. -/
theorem getAllVideos_preserves_records (videos : List Video)
    (fetchProfiles : List String → Except String (List Profile)) :
    ∃ l, getAllVideos (.ok videos) fetchProfiles = .ok l ∧
      l.length = videos.length ∧
      ∀ i (hi : i < videos.length) (hl : i < l.length),
        (l.get ⟨i, hl⟩).video = videos.get ⟨i, hi⟩ := by
  by_cases hne : videos.isEmpty
  · refine ⟨[], ?_, ?_, ?_⟩
    · rw [getAllVideos_ok, if_pos hne]
    · simp [List.isEmpty_iff.mp hne]
    · intro i hi hl; cases hl
  · rw [getAllVideos_ok, if_neg hne]
    cases hp : fetchProfiles (dedupFirst (videos.map (fun v => v.uploaded_by))) with
    | error e =>
      exact ⟨_, rfl, by simp, by intro i hi hl; simp [List.get_eq_getElem]⟩
    | ok profiles =>
      exact ⟨_, rfl, by simp, by intro i hi hl; simp [List.get_eq_getElem]⟩

/-- **C10** witness. -/
theorem getAllVideos_preserves_records_witness :
    ∃ l, getAllVideos (.ok [sampleVideo1, sampleVideo2])
        (fun _ => .ok [sampleProfile1]) = .ok l ∧
      l.length = [sampleVideo1, sampleVideo2].length ∧
      ∀ i (hi : i < [sampleVideo1, sampleVideo2].length) (hl : i < l.length),
        (l.get ⟨i, hl⟩).video = [sampleVideo1, sampleVideo2].get ⟨i, hi⟩ :=
  getAllVideos_preserves_records [sampleVideo1, sampleVideo2]
    (fun _ => .ok [sampleProfile1])

/-- **C3**: with an authenticated principal and a mime type outside the
allow-list, `uploadVideo` fails with the invalid-file-type message and
performs no storage or database call (empty call logs, blob store
untouched). -/
theorem uploadVideo_invalidType (env : UploadEnv) (store0 : List String)
    (blob : Blob) (title description : String) (u : Principal)
    (hu : env.user = some u)
    (hty : validTypes.contains blob.type = false) :
    uploadVideo env store0 blob title description =
      { result := .error "Hanya file video yang diperbolehkan (MP4, MOV, AVI, MPEG)",
        storageCalls := [], dbInserts := [], store := store0 } := by
  rw [uploadVideo_some env store0 blob title description u hu]
  exact if_pos hty

/-- **C3** witness. -/
theorem uploadVideo_invalidType_witness :
    uploadVideo okEnv [] badTypeBlob "a" "b" =
      { result := .error "Hanya file video yang diperbolehkan (MP4, MOV, AVI, MPEG)",
        storageCalls := [], dbInserts := [], store := [] } :=
  uploadVideo_invalidType okEnv [] badTypeBlob "a" "b" { id := "u1" } rfl rfl

/-- **C4**: with an authenticated principal and an allowed mime type, the
size check fails exactly when the size exceeds `50 * 1024 * 1024` bytes —
failing with the too-large message and zero storage/database calls — and
any size up to and including 50 MiB passes validation, reaching the
storage client. -/
theorem uploadVideo_sizeLimit (env : UploadEnv) (store0 : List String)
    (blob : Blob) (title description : String) (u : Principal)
    (hu : env.user = some u)
    (hty : validTypes.contains blob.type = true) :
    (blob.size > 50 * 1024 * 1024 →
      uploadVideo env store0 blob title description =
        { result := .error "File terlalu besar! Maksimal 50MB.",
          storageCalls := [], dbInserts := [], store := store0 }) ∧
    (blob.size ≤ 50 * 1024 * 1024 →
      (uploadVideo env store0 blob title description).storageCalls =
        [storageKey u.id env.nowMs env.randToken (fileExtOf blob.name)]) := by
  rw [uploadVideo_some env store0 blob title description u hu]
  constructor
  · intro hsz
    rw [if_neg (by rw [hty]; simp)]
    exact if_pos hsz
  · intro hsz
    rw [if_neg (by rw [hty]; simp), if_neg (by omega)]
    split
    · rfl
    · split <;> rfl

/-- **C4** witness: a blob one byte over the ceiling is rejected with no
I/O, and a valid blob reaches the storage client (a blob of exactly
50 MiB likewise passes the size check, by the same application with
`hugeBlob` replaced by a 52428800-byte blob). -/
theorem uploadVideo_sizeLimit_witness :
    uploadVideo okEnv [] hugeBlob "a" "b" =
      { result := .error "File terlalu besar! Maksimal 50MB.",
        storageCalls := [], dbInserts := [], store := [] } ∧
    (uploadVideo okEnv [] sampleBlob "a" "b").storageCalls =
      ["videos/u1/1700000000000-k3x9q.mp4"] :=
  ⟨(uploadVideo_sizeLimit okEnv [] hugeBlob "a" "b" { id := "u1" } rfl rfl).1
      (by decide),
    by
      rw [(uploadVideo_sizeLimit okEnv [] sampleBlob "a" "b" { id := "u1" }
        rfl rfl).2 (by decide)]
      decide⟩

/-- **C7**: when the blob write succeeds (public-URL derivation is total in
the code) but the metadata insert fails, `uploadVideo` returns the insert
failure, and the written blob is still present in the blob store
afterwards — no deletion or rollback happens. -/
theorem uploadVideo_metadataFailure (env : UploadEnv) (store0 : List String)
    (blob : Blob) (title description : String) (u : Principal) (path e : String)
    (hu : env.user = some u)
    (hty : validTypes.contains blob.type = true)
    (hsz : blob.size ≤ 50 * 1024 * 1024)
    (hst : env.storageUpload
      (storageKey u.id env.nowMs env.randToken (fileExtOf blob.name)) = .ok path)
    (hdb : ∀ r : VideoRecord, env.dbInsert r = .error e) :
    (uploadVideo env store0 blob title description).result = .error e ∧
      storageKey u.id env.nowMs env.randToken (fileExtOf blob.name) ∈
        (uploadVideo env store0 blob title description).store := by
  rw [uploadVideo_some env store0 blob title description u hu,
    if_neg (by rw [hty]; simp), if_neg (by omega)]
  simp only [hst, hdb]
  refine ⟨by trivial, by simp⟩

/-- **C7** witness. -/
theorem uploadVideo_metadataFailure_witness :
    (uploadVideo dbFailEnv [] sampleBlob "a" "b").result =
      .error "insert failed" ∧
    storageKey "u1" dbFailEnv.nowMs dbFailEnv.randToken
        (fileExtOf sampleBlob.name) ∈
      (uploadVideo dbFailEnv [] sampleBlob "a" "b").store :=
  uploadVideo_metadataFailure dbFailEnv [] sampleBlob "a" "b" { id := "u1" }
    (storageKey "u1" dbFailEnv.nowMs dbFailEnv.randToken
      (fileExtOf sampleBlob.name))
    "insert failed" rfl rfl (by decide) rfl (fun _ => rfl)

/-- **C9**: `uploadVideo` takes no duration parameter, and every successful
upload inserts exactly one metadata record, whose `duration` is `0`. -/
theorem uploadVideo_duration_zero (env : UploadEnv) (store0 : List String)
    (blob : Blob) (title description : String) (url : String)
    (h : (uploadVideo env store0 blob title description).result = .ok url) :
    ∃ r : VideoRecord,
      (uploadVideo env store0 blob title description).dbInserts = [r] ∧
        r.duration = 0 := by
  revert h
  cases hu : env.user with
  | none =>
    unfold uploadVideo
    rw [hu]
    intro h
    exact absurd h (by simp)
  | some u =>
    rw [uploadVideo_some env store0 blob title description u hu]
    split
    · intro h; exact absurd h (by simp)
    · split
      · intro h; exact absurd h (by simp)
      · split
        · intro h; exact absurd h (by simp)
        · split
          · intro h; exact absurd h (by simp)
          · intro h
            exact ⟨_, rfl, rfl⟩

/-- **C9** witness. -/
theorem uploadVideo_duration_zero_witness :
    ∃ r : VideoRecord,
      (uploadVideo okEnv [] sampleBlob "a" "b").dbInserts = [r] ∧
        r.duration = 0 :=
  uploadVideo_duration_zero okEnv [] sampleBlob "a" "b"
    "https://cdn.example/videos/u1/1700000000000-k3x9q.mp4" (by rfl)

/-- **C8** (amended): two uploads by the same principal at the same
millisecond derive distinct storage keys whenever their random suffixes
differ; the distinctness is carried entirely by the
`Math.random().toString(36).substring(7)` suffix, which the code does not
guarantee to be distinct across invocations (see the counterexample). -/
theorem uploadVideo_distinct_keys (env1 env2 : UploadEnv)
    (store1 store2 : List String) (blob : Blob) (t1 d1 t2 d2 : String)
    (u : Principal)
    (h1 : env1.user = some u) (h2 : env2.user = some u)
    (hty : validTypes.contains blob.type = true)
    (hsz : blob.size ≤ 50 * 1024 * 1024)
    (hms : env1.nowMs = env2.nowMs)
    (htok : env1.randToken ≠ env2.randToken) :
    ∃ k1 k2,
      (uploadVideo env1 store1 blob t1 d1).storageCalls = [k1] ∧
      (uploadVideo env2 store2 blob t2 d2).storageCalls = [k2] ∧
      k1 ≠ k2 := by
  refine ⟨storageKey u.id env1.nowMs env1.randToken (fileExtOf blob.name),
    storageKey u.id env2.nowMs env2.randToken (fileExtOf blob.name), ?_, ?_, ?_⟩
  · rw [uploadVideo_some env1 store1 blob t1 d1 u h1,
      if_neg (by rw [hty]; simp), if_neg (by omega)]
    split
    · rfl
    · split <;> rfl
  · rw [uploadVideo_some env2 store2 blob t2 d2 u h2,
      if_neg (by rw [hty]; simp), if_neg (by omega)]
    split
    · rfl
    · split <;> rfl
  · rw [hms]
    exact storageKey_ne_of_tok_ne u.id env2.nowMs env1.randToken env2.randToken
      (fileExtOf blob.name) htok

/-- **C8** witness. -/
theorem uploadVideo_distinct_keys_witness :
    ∃ k1 k2,
      (uploadVideo okEnv [] sampleBlob "a" "b").storageCalls = [k1] ∧
      (uploadVideo okEnv2 [] sampleBlob "c" "d").storageCalls = [k2] ∧
      k1 ≠ k2 :=
  uploadVideo_distinct_keys okEnv okEnv2 [] [] sampleBlob "a" "b" "c" "d"
    { id := "u1" } rfl rfl rfl (by decide) rfl (by decide)

/-- **C8** counterexample: two upload invocations by the same principal in
the same millisecond whose `Math.random()` values (`0.5` and `0.25`) both
strip to the empty suffix derive the *same* storage key, so the claim's
unconditional distinctness fails on the code. -/
theorem uploadVideo_key_collision :
    (uploadVideo collideEnvA [] sampleBlob "a" "b").storageCalls =
      ["videos/u1/1700000000000-.mp4"] ∧
    (uploadVideo collideEnvB [] sampleBlob "c" "d").storageCalls =
      ["videos/u1/1700000000000-.mp4"] :=
  ⟨by decide, by decide⟩

end Vidio
